import Mathlib

/-!
Verification of the scoring engine of the JEE-CBT repository
(`src/lib/score-calculator.ts`): the score calculator `calculateScore`
and the answer-key validator `validateAnswerKey`, embedded shallowly.

Conventions of the embedding:
* A JavaScript value of type `string | string[]` is `Answer`; `null` is
  represented by `Option`.
* JS `===` between a user answer and a key's `correctAnswer` is `jsEq`:
  two strings compare by value; an array compares by reference, and the
  user's array (UI state) and the key's array (parsed JSON) are always
  distinct objects, so any comparison involving an array is `false`.
* Numbers used for marks are embedded as `Int` (the scheme and overrides
  are integer-valued; no claim depends on float behaviour).
* The JS object `questionScores` is an association list to which the
  loop appends; JS iteration order of `forEach` is the list order.
-/

/-- `string | string[]` — the shape of `correctAnswer` and of a non-null
`userAnswer` in `score-calculator.ts`. -/
inductive Answer where
  | str : String → Answer
  | arr : List String → Answer
deriving DecidableEq, Repr

/-- JS strict equality `===` restricted to the shapes that occur in
`calculateScore` (`userAnswer === key.correctAnswer`): strings compare by
value, arrays by reference — and the two sides never alias, so an array on
either side yields `false`. -/
def jsEq : Answer → Answer → Bool
  | .str a, .str b => a == b
  | _, _ => false

/-- The `marks` triple `{correct, incorrect, unanswered}`. -/
structure Marks where
  correct : Int
  incorrect : Int
  unanswered : Int
deriving DecidableEq, Repr

/-- One entry of the `AnswerKey` interface. -/
structure KeyEntry where
  type : String
  correctAnswer : Answer
  marks : Option Marks
deriving DecidableEq, Repr

/-- The `AnswerKey` mapping from question id to entry, as an association
list (JS object keys are unique; lookup finds the entry for an id). -/
def AnswerKey := List (Nat × KeyEntry)

/-- `answerKey[question.id]` — `none` plays the role of `undefined`. -/
def lookupKey (answerKey : AnswerKey) (id : Nat) : Option KeyEntry :=
  (answerKey.find? (fun p => p.1 == id)).map Prod.snd

/-- `MarkingScheme.singleCorrect`. -/
structure SingleCorrectScheme where
  global : Bool
  default : Marks
deriving DecidableEq, Repr

/-- `MarkingScheme.multipleCorrect.partialCorrect`. -/
structure PartialCorrectScheme where
  allCorrectOptionsThreeMarked : Int
  twoCorrectOptionsMarked : Int
  oneCorrectOptionMarked : Int
deriving DecidableEq, Repr

/-- `MarkingScheme.multipleCorrect`. -/
structure MultipleCorrectScheme where
  allCorrect : Int
  partialCorrect : PartialCorrectScheme
  anyIncorrect : Int
  unanswered : Int
deriving DecidableEq, Repr

/-- The `MarkingScheme` interface. -/
structure MarkingScheme where
  singleCorrect : SingleCorrectScheme
  multipleCorrect : MultipleCorrectScheme
  numerical : Marks
deriving DecidableEq, Repr

/-- The `Question` interface (`id`, `type`, `userAnswer`); `null` is
`none`. -/
structure Question where
  id : Nat
  type : String
  userAnswer : Option Answer
deriving DecidableEq, Repr

/-- A `singleCorrect` or `numerical` bucket of `sectionScores`. -/
structure SimpleSection where
  score : Int
  maxScore : Int
  correct : Nat
  incorrect : Nat
  unanswered : Nat
deriving DecidableEq, Repr

/-- The `partialCorrect` counters of the `multipleCorrect` bucket. -/
structure PartialCorrectCounters where
  allCorrectOptionsThreeMarked : Nat
  twoCorrectOptionsMarked : Nat
  oneCorrectOptionMarked : Nat
deriving DecidableEq, Repr

/-- The `multipleCorrect` bucket of `sectionScores`. -/
structure MultipleSection where
  score : Int
  maxScore : Int
  allCorrect : Nat
  partialCorrect : PartialCorrectCounters
  anyIncorrect : Nat
  unanswered : Nat
deriving DecidableEq, Repr

/-- `ScoreResult.sectionScores`. -/
structure SectionScores where
  singleCorrect : SimpleSection
  multipleCorrect : MultipleSection
  numerical : SimpleSection
deriving DecidableEq, Repr

/-- One `questionScores` record. -/
structure QuestionScore where
  score : Int
  maxScore : Int
  isCorrect : Bool
  correctAnswer : Answer
  userAnswer : Option Answer
deriving DecidableEq, Repr

/-- The `ScoreResult` interface; `questionScores` is kept as the list of
assignments the loop performs, in order. -/
structure ScoreResult where
  totalScore : Int
  totalMaxScore : Int
  sectionScores : SectionScores
  questionScores : List (Nat × QuestionScore)
deriving DecidableEq, Repr

/-- The all-zero `result` object `calculateScore` starts from. -/
def initResult : ScoreResult :=
  { totalScore := 0
    totalMaxScore := 0
    sectionScores :=
      { singleCorrect := ⟨0, 0, 0, 0, 0⟩
        multipleCorrect := ⟨0, 0, 0, ⟨0, 0, 0⟩, 0, 0⟩
        numerical := ⟨0, 0, 0, 0, 0⟩ }
    questionScores := [] }

/-- The body of the `questions.forEach` callback in `calculateScore`:
one question's effect on the accumulated `result`.  Each `case` of the
`switch` computes `score`, `maxScore`, `isCorrect` and the updated
`sectionScores`; afterwards the `questionScores` entry is written and the
totals are bumped, exactly as in the source. -/
def processQuestion (markingScheme : MarkingScheme) (answerKey : AnswerKey)
    (result : ScoreResult) (question : Question) : ScoreResult :=
  match lookupKey answerKey question.id with
  | none => result
  | some key =>
    let s0 := result.sectionScores
    let step : Int × Int × Bool × SectionScores :=
      if question.type = "singleCorrect" then
        -- `!markingScheme.singleCorrect.global && key.marks ? key.marks : ...default`
        let m : Marks :=
          match markingScheme.singleCorrect.global, key.marks with
          | false, some km => km
          | _, _ => markingScheme.singleCorrect.default
        let maxScore := m.correct
        let sec := { s0.singleCorrect with maxScore := s0.singleCorrect.maxScore + maxScore }
        match question.userAnswer with
        | none =>
          (m.unanswered, maxScore, false,
            { s0 with singleCorrect :=
                { sec with unanswered := sec.unanswered + 1, score := sec.score + m.unanswered } })
        | some ua =>
          if jsEq ua key.correctAnswer then
            (m.correct, maxScore, true,
              { s0 with singleCorrect :=
                  { sec with correct := sec.correct + 1, score := sec.score + m.correct } })
          else
            (m.incorrect, maxScore, false,
              { s0 with singleCorrect :=
                  { sec with incorrect := sec.incorrect + 1, score := sec.score + m.incorrect } })
      else if question.type = "multipleCorrect" then
        let mc := markingScheme.multipleCorrect
        let maxScore := mc.allCorrect
        let sec := { s0.multipleCorrect with maxScore := s0.multipleCorrect.maxScore + maxScore }
        -- `userAnswer === null || (Array.isArray(userAnswer) && userAnswer.length === 0)`
        let isUnanswered : Bool :=
          match question.userAnswer with
          | none => true
          | some (.arr l) => l.isEmpty
          | some (.str _) => false
        if isUnanswered then
          (mc.unanswered, maxScore, false,
            { s0 with multipleCorrect :=
                { sec with unanswered := sec.unanswered + 1, score := sec.score + mc.unanswered } })
        else
          match question.userAnswer, key.correctAnswer with
          | some (.arr marked), .arr correctSet =>
            -- `userAnswer.some((option) => !key.correctAnswer.includes(option))`
            if marked.any (fun o => !(correctSet.contains o)) then
              (mc.anyIncorrect, maxScore, false,
                { s0 with multipleCorrect :=
                    { sec with anyIncorrect := sec.anyIncorrect + 1,
                               score := sec.score + mc.anyIncorrect } })
            else
              let correctOptionsCount := correctSet.length
              let markedCorrectOptionsCount := marked.length
              if markedCorrectOptionsCount = correctOptionsCount then
                (mc.allCorrect, maxScore, true,
                  { s0 with multipleCorrect :=
                      { sec with allCorrect := sec.allCorrect + 1,
                                 score := sec.score + mc.allCorrect } })
              else if correctOptionsCount = 4 ∧ markedCorrectOptionsCount = 3 then
                (mc.partialCorrect.allCorrectOptionsThreeMarked, maxScore, false,
                  { s0 with multipleCorrect :=
                      { sec with
                          partialCorrect := { sec.partialCorrect with
                            allCorrectOptionsThreeMarked :=
                              sec.partialCorrect.allCorrectOptionsThreeMarked + 1 }
                          score := sec.score + mc.partialCorrect.allCorrectOptionsThreeMarked } })
              else if 3 ≤ correctOptionsCount ∧ markedCorrectOptionsCount = 2 then
                (mc.partialCorrect.twoCorrectOptionsMarked, maxScore, false,
                  { s0 with multipleCorrect :=
                      { sec with
                          partialCorrect := { sec.partialCorrect with
                            twoCorrectOptionsMarked :=
                              sec.partialCorrect.twoCorrectOptionsMarked + 1 }
                          score := sec.score + mc.partialCorrect.twoCorrectOptionsMarked } })
              else if 2 ≤ correctOptionsCount ∧ markedCorrectOptionsCount = 1 then
                (mc.partialCorrect.oneCorrectOptionMarked, maxScore, false,
                  { s0 with multipleCorrect :=
                      { sec with
                          partialCorrect := { sec.partialCorrect with
                            oneCorrectOptionMarked :=
                              sec.partialCorrect.oneCorrectOptionMarked + 1 }
                          score := sec.score + mc.partialCorrect.oneCorrectOptionMarked } })
              else
                (mc.anyIncorrect, maxScore, false,
                  { s0 with multipleCorrect :=
                      { sec with anyIncorrect := sec.anyIncorrect + 1,
                                 score := sec.score + mc.anyIncorrect } })
          | _, _ =>
            -- the `else if` guard fails: `score` stays 0, no counter moves,
            -- `score += 0` is a no-op
            (0, maxScore, false, { s0 with multipleCorrect := sec })
      else if question.type = "numerical" then
        let m := markingScheme.numerical
        let maxScore := m.correct
        let sec := { s0.numerical with maxScore := s0.numerical.maxScore + maxScore }
        match question.userAnswer with
        | none =>
          (m.unanswered, maxScore, false,
            { s0 with numerical :=
                { sec with unanswered := sec.unanswered + 1, score := sec.score + m.unanswered } })
        | some ua =>
          if jsEq ua key.correctAnswer then
            (m.correct, maxScore, true,
              { s0 with numerical :=
                  { sec with correct := sec.correct + 1, score := sec.score + m.correct } })
          else
            (m.incorrect, maxScore, false,
              { s0 with numerical :=
                  { sec with incorrect := sec.incorrect + 1, score := sec.score + m.incorrect } })
      else
        -- the `switch` has no `default` branch
        (0, 0, false, s0)
    match step with
    | (score, maxScore, isCorrect, sections) =>
      { totalScore := result.totalScore + score
        totalMaxScore := result.totalMaxScore + maxScore
        sectionScores := sections
        questionScores := result.questionScores ++
          [(question.id,
            { score := score, maxScore := maxScore, isCorrect := isCorrect,
              correctAnswer := key.correctAnswer, userAnswer := question.userAnswer })] }

/-- `calculateScore(questions, answerKey, markingScheme)`. -/
def calculateScore (questions : List Question) (answerKey : AnswerKey)
    (markingScheme : MarkingScheme) : ScoreResult :=
  questions.foldl (processQuestion markingScheme answerKey) initResult

/-- The `defaultMarkingScheme` constant of the source. -/
def defaultMarkingScheme : MarkingScheme :=
  { singleCorrect := { global := true, default := ⟨4, -1, 0⟩ }
    multipleCorrect :=
      { allCorrect := 4
        partialCorrect := ⟨3, 2, 1⟩
        anyIncorrect := -2
        unanswered := 0 }
    numerical := ⟨4, 0, 0⟩ }

/-- The `sampleAnswerKey` constant of the source. -/
def sampleAnswerKey : AnswerKey :=
  [ (1, ⟨"singleCorrect", .str "A", some ⟨4, -1, 0⟩⟩),
    (2, ⟨"singleCorrect", .str "B", none⟩),
    (3, ⟨"multipleCorrect", .arr ["A", "C", "D"], none⟩),
    (4, ⟨"multipleCorrect", .arr ["B", "D"], none⟩),
    (5, ⟨"numerical", .str "9.8", none⟩) ]

/-!
## The untrusted-value model for `validateAnswerKey`

`validateAnswerKey` takes `any`; we model the JSON-shaped JS values it can
meet.  `typeof null` is `"object"`, `typeof` of an array is `"object"`,
and `Object.entries` of an array yields its index keys as strings.
-/

/-- A JS value as `validateAnswerKey` can receive it. -/
inductive JSValue where
  | null
  | undefined
  | bool : Bool → JSValue
  | num : Int → JSValue
  | str : String → JSValue
  | arr : List JSValue → JSValue
  | obj : List (String × JSValue) → JSValue

/-- JS strict equality of a value against a string literal (as in
`type !== "singleCorrect"`): true exactly for that string. -/
def isStrVal (v : JSValue) (s : String) : Bool :=
  match v with
  | .str t => t == s
  | _ => false

/-- JS truthiness: `null`, `undefined`, `false`, `0` and `""` are falsy. -/
def truthy : JSValue → Bool
  | .null => false
  | .undefined => false
  | .bool b => b
  | .num n => n != 0
  | .str s => !s.isEmpty
  | .arr _ => true
  | .obj _ => true

/-- JS `typeof` (as a string; `typeof null` is `"object"`). -/
def jsTypeof : JSValue → String
  | .null => "object"
  | .undefined => "undefined"
  | .bool _ => "boolean"
  | .num _ => "number"
  | .str _ => "string"
  | .arr _ => "object"
  | .obj _ => "object"

/-- JS `Array.isArray`. -/
def isJsArray : JSValue → Bool
  | .arr _ => true
  | _ => false

/-- The `length` property of a JS array. -/
def jsArrayLength : JSValue → Nat
  | .arr xs => xs.length
  | _ => 0

/-- `Object.entries` on the values that reach it in `validateAnswerKey`
(an object's own fields; an array's elements under their index keys). -/
def entriesOf : JSValue → List (String × JSValue)
  | .obj fields => fields
  | .arr xs => ((List.range xs.length).zip xs).map (fun p => (toString p.1, p.2))
  | _ => []

/-- The `"k" in v` test for the own string keys used by the validator
(`"type"`, `"correctAnswer"`, `"correct"`, ...): an object has them when a
field carries the name; an array's own keys are its numeric indices, never
those names. -/
def hasKey (v : JSValue) (k : String) : Bool :=
  match v with
  | .obj fields => fields.any (fun p => p.1 == k)
  | _ => false

/-- Property read `(v as any).k` for a string key: the field's value, or
`undefined` when absent. -/
def getField (v : JSValue) (k : String) : JSValue :=
  match v with
  | .obj fields =>
    match fields.find? (fun p => p.1 == k) with
    | some p => p.2
    | none => .undefined
  | _ => .undefined

/-- Consume leading decimal digits: their count and the rest. -/
def spanDigits : List Char → Nat × List Char
  | [] => (0, [])
  | c :: cs =>
    if c.isDigit then
      let r := spanDigits cs
      (r.1 + 1, r.2)
    else (0, c :: cs)

/-- An optional exponent part `eE [+-] digits` closing the literal. -/
def expPartOk : List Char → Bool
  | [] => true
  | c :: cs =>
    if c = 'e' ∨ c = 'E' then
      let body :=
        match cs with
        | d :: ds => if d = '+' ∨ d = '-' then ds else d :: ds
        | [] => []
      let r := spanDigits body
      decide (0 < r.1) && decide (r.2 = [])
    else false

/-- An unsigned decimal literal `digits [. digits] [exp]` or
`. digits [exp]`, consuming the whole input. -/
def decLitOk (cs : List Char) : Bool :=
  let r1 := spanDigits cs
  match r1.2 with
  | '.' :: rest =>
    let r2 := spanDigits rest
    (decide (0 < r1.1) || decide (0 < r2.1)) && expPartOk r2.2
  | other => decide (0 < r1.1) && expPartOk other

/-- A full string numeric literal after trimming: hex, or an optionally
signed `Infinity` or decimal literal. -/
def strNumLitOk (cs : List Char) : Bool :=
  match cs with
  | '0' :: 'x' :: rest => decide (rest ≠ []) && rest.all (fun c => "0123456789abcdefABCDEF".toList.contains c)
  | '0' :: 'X' :: rest => decide (rest ≠ []) && rest.all (fun c => "0123456789abcdefABCDEF".toList.contains c)
  | _ =>
    let body :=
      match cs with
      | c :: rest => if c = '+' ∨ c = '-' then rest else c :: rest
      | [] => []
    decide (body = "Infinity".toList) || decLitOk body

/-- `!isNaN(Number(id))` for a string `id`: JS converts the trimmed string,
the empty string converting to `0` (hence not NaN). -/
def jsNumberNotNaN (s : String) : Bool :=
  let t := s.toList.dropWhile (fun c => c.isWhitespace)
  let t := (t.reverse.dropWhile (fun c => c.isWhitespace)).reverse
  decide (t = []) || strNumLitOk t

/-- The per-entry loop body of `validateAnswerKey`, as the conjunction of
its early-return checks in source order. -/
def validateEntry (id : String) (question : JSValue) : Bool :=
  if !jsNumberNotNaN id then false
  else if !truthy question || jsTypeof question != "object" then false
  else if !hasKey question "type" || !hasKey question "correctAnswer" then false
  else
    let type := getField question "type"
    if !isStrVal type "singleCorrect" && !isStrVal type "multipleCorrect" &&
        !isStrVal type "numerical" then false
    else
      let correctAnswer := getField question "correctAnswer"
      if isStrVal type "singleCorrect" && !(jsTypeof correctAnswer == "string") then false
      else if isStrVal type "multipleCorrect" &&
          (!isJsArray correctAnswer || jsArrayLength correctAnswer == 0) then false
      else if isStrVal type "numerical" && !(jsTypeof correctAnswer == "string") then false
      else
        let marks := getField question "marks"
        if truthy marks then
          if jsTypeof marks != "object" then false
          else if !hasKey marks "correct" || !hasKey marks "incorrect" ||
              !hasKey marks "unanswered" then false
          else if jsTypeof (getField marks "correct") != "number" ||
              jsTypeof (getField marks "incorrect") != "number" ||
              jsTypeof (getField marks "unanswered") != "number" then false
          else true
        else true

/-- `validateAnswerKey(answerKey)`. -/
def validateAnswerKey (answerKey : JSValue) : Bool :=
  if !truthy answerKey || jsTypeof answerKey != "object" then false
  else if (entriesOf answerKey).length == 0 then false
  else (entriesOf answerKey).all (fun p => validateEntry p.1 p.2)

/-!
## Claim-side definitions

Each of the following definitions restates a behaviour in the words of the
specification (or of a claim derived from it); the theorems below compare
them with the embedded source functions.
-/

/-- The effective marks triple for a `singleCorrect` question as claim C2
states it: the key's per-question override exactly when
`markingScheme.singleCorrect.global` is false and the key entry has
`marks`, and `markingScheme.singleCorrect.default` otherwise. -/
def claimEffectiveSingleMarks (ms : MarkingScheme) (key : KeyEntry) : Marks :=
  if ms.singleCorrect.global = false ∧ key.marks.isSome then
    key.marks.getD ms.singleCorrect.default
  else ms.singleCorrect.default

/-- The three-way outcome of a `singleCorrect`/`numerical` question as the
spec states it: `(score, isCorrect)` — `null` is unanswered, exact string
equality with the key is correct, anything else incorrect. -/
def claimSimpleOutcome (m : Marks) (correctAnswer : Answer)
    (userAnswer : Option Answer) : Int × Bool :=
  match userAnswer with
  | none => (m.unanswered, false)
  | some ua => if jsEq ua correctAnswer then (m.correct, true) else (m.incorrect, false)

/-- The `(correct, incorrect, unanswered)` counter increments of a
`singleCorrect`/`numerical` question as the spec states them. -/
def claimSimpleCounters (correctAnswer : Answer)
    (userAnswer : Option Answer) : Nat × Nat × Nat :=
  match userAnswer with
  | none => (0, 0, 1)
  | some ua => if jsEq ua correctAnswer then (1, 0, 0) else (0, 1, 0)

/-- Claim C1's tie-break ladder for a `multipleCorrect` question whose user
answer is `null` (`none`) or an array of options (`some marked`), named by
its outcome tier.  The branches are evaluated in the claim's order, first
match wins, and any remaining shape falls through to `anyIncorrect`. -/
def claimMultipleTier (correctSet : List String) :
    Option (List String) → String
  | none => "unanswered"
  | some marked =>
    if marked.isEmpty then "unanswered"
    else if marked.any (fun o => !(correctSet.contains o)) then "anyIncorrect"
    else if marked.length = correctSet.length then "allCorrect"
    else if correctSet.length = 4 ∧ marked.length = 3 then "allCorrectOptionsThreeMarked"
    else if 3 ≤ correctSet.length ∧ marked.length = 2 then "twoCorrectOptionsMarked"
    else if 2 ≤ correctSet.length ∧ marked.length = 1 then "oneCorrectOptionMarked"
    else "anyIncorrect"

/-- The score the marking scheme awards to each `multipleCorrect` tier. -/
def claimTierScore (mc : MultipleCorrectScheme) (tier : String) : Int :=
  if tier == "unanswered" then mc.unanswered
  else if tier == "anyIncorrect" then mc.anyIncorrect
  else if tier == "allCorrect" then mc.allCorrect
  else if tier == "allCorrectOptionsThreeMarked" then
    mc.partialCorrect.allCorrectOptionsThreeMarked
  else if tier == "twoCorrectOptionsMarked" then mc.partialCorrect.twoCorrectOptionsMarked
  else mc.partialCorrect.oneCorrectOptionMarked

/-- Increment the outcome counter of the `multipleCorrect` bucket named by
the tier. -/
def bumpTierCounter (sec : MultipleSection) (tier : String) : MultipleSection :=
  if tier == "unanswered" then { sec with unanswered := sec.unanswered + 1 }
  else if tier == "anyIncorrect" then { sec with anyIncorrect := sec.anyIncorrect + 1 }
  else if tier == "allCorrect" then { sec with allCorrect := sec.allCorrect + 1 }
  else if tier == "allCorrectOptionsThreeMarked" then
    { sec with partialCorrect := { sec.partialCorrect with
        allCorrectOptionsThreeMarked := sec.partialCorrect.allCorrectOptionsThreeMarked + 1 } }
  else if tier == "twoCorrectOptionsMarked" then
    { sec with partialCorrect := { sec.partialCorrect with
        twoCorrectOptionsMarked := sec.partialCorrect.twoCorrectOptionsMarked + 1 } }
  else
    { sec with partialCorrect := { sec.partialCorrect with
        oneCorrectOptionMarked := sec.partialCorrect.oneCorrectOptionMarked + 1 } }

/-- "A non-null object" in JS terms (`typeof` is `"object"` and the value
is not `null`): exactly the arrays and objects of the model. -/
def isNonNullObject : JSValue → Bool
  | .arr _ => true
  | .obj _ => true
  | _ => false

/-- Claim C3's per-entry conditions, in the claim's words: the id parses
as a number, the entry is a non-null object containing both `type` and
`correctAnswer`, the type is one of the three recognized names, and
`correctAnswer` is a string for `singleCorrect`/`numerical` and a
non-empty array for `multipleCorrect`.  (No condition on `marks`.) -/
def claimEntryOk (id : String) (question : JSValue) : Bool :=
  jsNumberNotNaN id &&
  isNonNullObject question &&
  hasKey question "type" && hasKey question "correctAnswer" &&
  (isStrVal (getField question "type") "singleCorrect" ||
   isStrVal (getField question "type") "multipleCorrect" ||
   isStrVal (getField question "type") "numerical") &&
  (if isStrVal (getField question "type") "multipleCorrect" then
     isJsArray (getField question "correctAnswer") &&
       decide (0 < jsArrayLength (getField question "correctAnswer"))
   else jsTypeof (getField question "correctAnswer") == "string")

/-- The whole-document predicate claim C3 asserts `validateAnswerKey` to
equal: a non-null object with at least one entry, all entries passing
`claimEntryOk`. -/
def claimValidDocC3 (answerKey : JSValue) : Bool :=
  isNonNullObject answerKey &&
  !(entriesOf answerKey).isEmpty &&
  (entriesOf answerKey).all (fun p => claimEntryOk p.1 p.2)

/-- Claim C7's requirement on a `marks` value: an object containing all
three of `correct`, `incorrect`, `unanswered`, each of type number. -/
def claimMarksOk (marks : JSValue) : Bool :=
  (jsTypeof marks == "object") &&
  hasKey marks "correct" && hasKey marks "incorrect" && hasKey marks "unanswered" &&
  (jsTypeof (getField marks "correct") == "number") &&
  (jsTypeof (getField marks "incorrect") == "number") &&
  (jsTypeof (getField marks "unanswered") == "number")

/-- The per-entry conditions of claim C3 amended by the rule the code
actually applies to `marks`: when the entry's `marks` value is truthy it
must satisfy `claimMarksOk`; a falsy `marks` (absent, `null`, `false`,
`0`, `""`) is skipped. -/
def amendedEntryOk (id : String) (question : JSValue) : Bool :=
  claimEntryOk id question &&
  (!truthy (getField question "marks") || claimMarksOk (getField question "marks"))

/-- The amended whole-document predicate of claim C3. -/
def amendedValidDoc (answerKey : JSValue) : Bool :=
  isNonNullObject answerKey &&
  !(entriesOf answerKey).isEmpty &&
  (entriesOf answerKey).all (fun p => amendedEntryOk p.1 p.2)

/-! ## Helper lemmas about the scoring step -/

lemma processQuestion_none (ms : MarkingScheme) (ak : AnswerKey) (r : ScoreResult)
    (q : Question) (h : lookupKey ak q.id = none) :
    processQuestion ms ak r q = r := by
  unfold processQuestion
  rw [h]

lemma processQuestion_some (ms : MarkingScheme) (ak : AnswerKey) (r : ScoreResult)
    (q : Question) (key : KeyEntry) (h : lookupKey ak q.id = some key) :
    ∃ x : Int × Int × Bool × SectionScores,
      processQuestion ms ak r q =
        { totalScore := r.totalScore + x.1
          totalMaxScore := r.totalMaxScore + x.2.1
          sectionScores := x.2.2.2
          questionScores := r.questionScores ++
            [(q.id, ⟨x.1, x.2.1, x.2.2.1, key.correctAnswer, q.userAnswer⟩)] } := by
  unfold processQuestion
  rw [h]
  exact ⟨_, rfl⟩

lemma mem_fst_questionScores_foldl (ms : MarkingScheme) (ak : AnswerKey) (i : Nat)
    (hk : lookupKey ak i = none) :
    ∀ (qs : List Question) (r : ScoreResult),
      i ∉ r.questionScores.map Prod.fst →
      i ∉ ((qs.foldl (processQuestion ms ak) r).questionScores.map Prod.fst) := by
  intro qs
  induction qs with
  | nil => intro r hr; exact hr
  | cons q qs ih =>
    intro r hr
    simp only [List.foldl_cons]
    refine ih _ ?_
    cases hq : lookupKey ak q.id with
    | none => rw [processQuestion_none ms ak r q hq]; exact hr
    | some key =>
      obtain ⟨x, hx⟩ := processQuestion_some ms ak r q key hq
      rw [hx]
      simp only [List.map_append, List.map_cons, List.map_nil, List.mem_append,
        List.mem_singleton, List.mem_cons, List.not_mem_nil]
      rintro (h1 | h2)
      · exact hr h1
      · rcases h2 with h2 | h2
        · subst h2; rw [hq] at hk; exact Option.noConfusion hk
        · exact h2.elim

lemma step_singleCorrect (ms : MarkingScheme) (ak : AnswerKey) (r : ScoreResult)
    (q : Question) (key : KeyEntry)
    (hk : lookupKey ak q.id = some key) (ht : q.type = "singleCorrect") :
    processQuestion ms ak r q =
      { totalScore := r.totalScore +
          (claimSimpleOutcome (claimEffectiveSingleMarks ms key) key.correctAnswer q.userAnswer).1
        totalMaxScore := r.totalMaxScore + (claimEffectiveSingleMarks ms key).correct
        sectionScores := { r.sectionScores with singleCorrect :=
          { score := r.sectionScores.singleCorrect.score +
              (claimSimpleOutcome (claimEffectiveSingleMarks ms key) key.correctAnswer q.userAnswer).1
            maxScore := r.sectionScores.singleCorrect.maxScore +
              (claimEffectiveSingleMarks ms key).correct
            correct := r.sectionScores.singleCorrect.correct +
              (claimSimpleCounters key.correctAnswer q.userAnswer).1
            incorrect := r.sectionScores.singleCorrect.incorrect +
              (claimSimpleCounters key.correctAnswer q.userAnswer).2.1
            unanswered := r.sectionScores.singleCorrect.unanswered +
              (claimSimpleCounters key.correctAnswer q.userAnswer).2.2 } }
        questionScores := r.questionScores ++
          [(q.id,
            { score := (claimSimpleOutcome (claimEffectiveSingleMarks ms key) key.correctAnswer q.userAnswer).1
              maxScore := (claimEffectiveSingleMarks ms key).correct
              isCorrect := (claimSimpleOutcome (claimEffectiveSingleMarks ms key) key.correctAnswer q.userAnswer).2
              correctAnswer := key.correctAnswer
              userAnswer := q.userAnswer })] } := by
  rcases hg : ms.singleCorrect.global <;> rcases hm : key.marks with _ | km <;>
    rcases hu : q.userAnswer with _ | ua <;>
    simp [processQuestion, hk, ht, hg, hm, hu, claimEffectiveSingleMarks,
      claimSimpleOutcome, claimSimpleCounters] <;>
    rcases hje : jsEq ua key.correctAnswer <;> simp [hje]

lemma step_numerical (ms : MarkingScheme) (ak : AnswerKey) (r : ScoreResult)
    (q : Question) (key : KeyEntry)
    (hk : lookupKey ak q.id = some key) (ht : q.type = "numerical") :
    processQuestion ms ak r q =
      { totalScore := r.totalScore +
          (claimSimpleOutcome ms.numerical key.correctAnswer q.userAnswer).1
        totalMaxScore := r.totalMaxScore + ms.numerical.correct
        sectionScores := { r.sectionScores with numerical :=
          { score := r.sectionScores.numerical.score +
              (claimSimpleOutcome ms.numerical key.correctAnswer q.userAnswer).1
            maxScore := r.sectionScores.numerical.maxScore + ms.numerical.correct
            correct := r.sectionScores.numerical.correct +
              (claimSimpleCounters key.correctAnswer q.userAnswer).1
            incorrect := r.sectionScores.numerical.incorrect +
              (claimSimpleCounters key.correctAnswer q.userAnswer).2.1
            unanswered := r.sectionScores.numerical.unanswered +
              (claimSimpleCounters key.correctAnswer q.userAnswer).2.2 } }
        questionScores := r.questionScores ++
          [(q.id,
            { score := (claimSimpleOutcome ms.numerical key.correctAnswer q.userAnswer).1
              maxScore := ms.numerical.correct
              isCorrect := (claimSimpleOutcome ms.numerical key.correctAnswer q.userAnswer).2
              correctAnswer := key.correctAnswer
              userAnswer := q.userAnswer })] } := by
  rcases hu : q.userAnswer with _ | ua <;>
    simp [processQuestion, hk, ht, hu, claimSimpleOutcome, claimSimpleCounters] <;>
    rcases hje : jsEq ua key.correctAnswer <;> simp [hje]

lemma step_multipleCorrect (ms : MarkingScheme) (ak : AnswerKey) (r : ScoreResult)
    (q : Question) (key : KeyEntry) (correctSet : List String)
    (uaL : Option (List String))
    (hk : lookupKey ak q.id = some key) (ht : q.type = "multipleCorrect")
    (hc : key.correctAnswer = .arr correctSet)
    (hu : q.userAnswer = uaL.map Answer.arr) :
    processQuestion ms ak r q =
      { totalScore := r.totalScore +
          claimTierScore ms.multipleCorrect (claimMultipleTier correctSet uaL)
        totalMaxScore := r.totalMaxScore + ms.multipleCorrect.allCorrect
        sectionScores :=
          { r.sectionScores with
              multipleCorrect :=
                bumpTierCounter
                  ({ r.sectionScores.multipleCorrect with
                      score := r.sectionScores.multipleCorrect.score +
                        claimTierScore ms.multipleCorrect (claimMultipleTier correctSet uaL)
                      maxScore := r.sectionScores.multipleCorrect.maxScore +
                        ms.multipleCorrect.allCorrect })
                  (claimMultipleTier correctSet uaL) }
        questionScores := r.questionScores ++
          [(q.id,
            { score := claimTierScore ms.multipleCorrect (claimMultipleTier correctSet uaL)
              maxScore := ms.multipleCorrect.allCorrect
              isCorrect := claimMultipleTier correctSet uaL == "allCorrect"
              correctAnswer := key.correctAnswer
              userAnswer := q.userAnswer })] } := by
  rcases uaL with _ | l
  · simp only [Option.map_none'] at hu
    simp [processQuestion, hk, ht, hc, hu, claimMultipleTier, claimTierScore, bumpTierCounter]
  · simp only [Option.map_some'] at hu
    by_cases he : l = []
    · simp [processQuestion, hk, ht, hc, hu, he, claimMultipleTier, claimTierScore,
        bumpTierCounter]
    · by_cases hbad : ∃ x ∈ l, x ∉ correctSet
      · simp [processQuestion, hk, ht, hc, hu, he, hbad, claimMultipleTier, claimTierScore,
          bumpTierCounter]
      · by_cases h1 : l.length = correctSet.length
        · simp [processQuestion, hk, ht, hc, hu, he, hbad, h1, claimMultipleTier,
            claimTierScore, bumpTierCounter]
        · by_cases h2 : correctSet.length = 4 ∧ l.length = 3
          · simp [processQuestion, hk, ht, hc, hu, he, hbad, h1, h2, claimMultipleTier,
              claimTierScore, bumpTierCounter]
          · by_cases h3 : 3 ≤ correctSet.length ∧ l.length = 2
            · have h1' : ¬(2 = correctSet.length) := by
                rcases h3 with ⟨h3a, h3b⟩
                omega
              simp [processQuestion, hk, ht, hc, hu, he, hbad, h1, h1', h2, h3,
                claimMultipleTier, claimTierScore, bumpTierCounter]
            · by_cases h4 : 2 ≤ correctSet.length ∧ l.length = 1
              · have h1' : ¬(1 = correctSet.length) := by
                  rcases h4 with ⟨h4a, h4b⟩
                  omega
                simp [processQuestion, hk, ht, hc, hu, he, hbad, h1, h1', h2, h3, h4,
                  claimMultipleTier, claimTierScore, bumpTierCounter]
              · simp [processQuestion, hk, ht, hc, hu, he, hbad, h1, h2, h3, h4,
                  claimMultipleTier, claimTierScore, bumpTierCounter]

lemma step_multipleCorrect_skip (ms : MarkingScheme) (ak : AnswerKey) (r : ScoreResult)
    (q : Question) (key : KeyEntry)
    (hk : lookupKey ak q.id = some key) (ht : q.type = "multipleCorrect")
    (hshape : (∃ s, q.userAnswer = some (.str s)) ∨
      (∃ l s, q.userAnswer = some (.arr l) ∧ l.isEmpty = false ∧ key.correctAnswer = .str s)) :
    processQuestion ms ak r q =
      { totalScore := r.totalScore
        totalMaxScore := r.totalMaxScore + ms.multipleCorrect.allCorrect
        sectionScores := { r.sectionScores with multipleCorrect :=
          { r.sectionScores.multipleCorrect with
              maxScore := r.sectionScores.multipleCorrect.maxScore +
                ms.multipleCorrect.allCorrect } }
        questionScores := r.questionScores ++
          [(q.id,
            { score := 0
              maxScore := ms.multipleCorrect.allCorrect
              isCorrect := false
              correctAnswer := key.correctAnswer
              userAnswer := q.userAnswer })] } := by
  rcases hshape with ⟨s, hu⟩ | ⟨l, s, hu, hne, hc⟩
  · simp [processQuestion, hk, ht, hu]
  · simp [processQuestion, hk, ht, hu, hne, hc]

lemma step_unknownType (ms : MarkingScheme) (ak : AnswerKey) (r : ScoreResult)
    (q : Question) (key : KeyEntry)
    (hk : lookupKey ak q.id = some key)
    (h1 : q.type ≠ "singleCorrect") (h2 : q.type ≠ "multipleCorrect")
    (h3 : q.type ≠ "numerical") :
    processQuestion ms ak r q =
      { totalScore := r.totalScore
        totalMaxScore := r.totalMaxScore
        sectionScores := r.sectionScores
        questionScores := r.questionScores ++
          [(q.id,
            { score := 0, maxScore := 0, isCorrect := false,
              correctAnswer := key.correctAnswer, userAnswer := q.userAnswer })] } := by
  simp [processQuestion, hk, h1, h2, h3]

lemma step_multipleCorrect_unanswered (ms : MarkingScheme) (ak : AnswerKey)
    (r : ScoreResult) (q : Question) (key : KeyEntry)
    (hk : lookupKey ak q.id = some key) (ht : q.type = "multipleCorrect")
    (hu : q.userAnswer = none ∨ q.userAnswer = some (.arr [])) :
    processQuestion ms ak r q =
      { totalScore := r.totalScore + ms.multipleCorrect.unanswered
        totalMaxScore := r.totalMaxScore + ms.multipleCorrect.allCorrect
        sectionScores := { r.sectionScores with multipleCorrect :=
          { r.sectionScores.multipleCorrect with
              score := r.sectionScores.multipleCorrect.score + ms.multipleCorrect.unanswered
              maxScore := r.sectionScores.multipleCorrect.maxScore +
                ms.multipleCorrect.allCorrect
              unanswered := r.sectionScores.multipleCorrect.unanswered + 1 } }
        questionScores := r.questionScores ++
          [(q.id,
            { score := ms.multipleCorrect.unanswered
              maxScore := ms.multipleCorrect.allCorrect
              isCorrect := false
              correctAnswer := key.correctAnswer
              userAnswer := q.userAnswer })] } := by
  rcases hu with hu | hu <;> simp [processQuestion, hk, ht, hu]

lemma bumpTierCounter_score (sec : MultipleSection) (tier : String) :
    (bumpTierCounter sec tier).score = sec.score := by
  unfold bumpTierCounter
  split_ifs <;> rfl

lemma bumpTierCounter_maxScore (sec : MultipleSection) (tier : String) :
    (bumpTierCounter sec tier).maxScore = sec.maxScore := by
  unfold bumpTierCounter
  split_ifs <;> rfl

lemma processQuestion_sums (ms : MarkingScheme) (ak : AnswerKey) (q : Question)
    (r : ScoreResult)
    (h1 : r.totalScore = r.sectionScores.singleCorrect.score +
      r.sectionScores.multipleCorrect.score + r.sectionScores.numerical.score)
    (h2 : r.totalMaxScore = r.sectionScores.singleCorrect.maxScore +
      r.sectionScores.multipleCorrect.maxScore + r.sectionScores.numerical.maxScore) :
    (processQuestion ms ak r q).totalScore =
      (processQuestion ms ak r q).sectionScores.singleCorrect.score +
      (processQuestion ms ak r q).sectionScores.multipleCorrect.score +
      (processQuestion ms ak r q).sectionScores.numerical.score ∧
    (processQuestion ms ak r q).totalMaxScore =
      (processQuestion ms ak r q).sectionScores.singleCorrect.maxScore +
      (processQuestion ms ak r q).sectionScores.multipleCorrect.maxScore +
      (processQuestion ms ak r q).sectionScores.numerical.maxScore := by
  cases hk : lookupKey ak q.id with
  | none => rw [processQuestion_none ms ak r q hk]; exact ⟨h1, h2⟩
  | some key =>
    by_cases ht1 : q.type = "singleCorrect"
    · rw [step_singleCorrect ms ak r q key hk ht1]
      dsimp
      constructor <;> omega
    · by_cases ht2 : q.type = "multipleCorrect"
      · rcases hu : q.userAnswer with _ | ua
        · rw [step_multipleCorrect_unanswered ms ak r q key hk ht2 (Or.inl hu)]
          dsimp
          constructor <;> omega
        · rcases ua with s | l
          · rw [step_multipleCorrect_skip ms ak r q key hk ht2 (Or.inl ⟨s, hu⟩)]
            dsimp
            constructor <;> omega
          · by_cases he : l = []
            · subst he
              rw [step_multipleCorrect_unanswered ms ak r q key hk ht2 (Or.inr hu)]
              dsimp
              constructor <;> omega
            · rcases hcs : key.correctAnswer with s | cs
              · have hne : l.isEmpty = false := by simp [he]
                rw [step_multipleCorrect_skip ms ak r q key hk ht2
                  (Or.inr ⟨l, s, hu, hne, hcs⟩)]
                dsimp
                constructor <;> omega
              · rw [step_multipleCorrect ms ak r q key cs (some l) hk ht2 hcs
                  (by simp [hu])]
                dsimp
                rw [bumpTierCounter_score, bumpTierCounter_maxScore]
                dsimp
                constructor <;> omega
      · by_cases ht3 : q.type = "numerical"
        · rw [step_numerical ms ak r q key hk ht3]
          dsimp
          constructor <;> omega
        · rw [step_unknownType ms ak r q key hk ht1 ht2 ht3]
          dsimp
          exact ⟨h1, h2⟩

lemma foldl_sums (ms : MarkingScheme) (ak : AnswerKey) :
    ∀ (qs : List Question) (r : ScoreResult),
      (r.totalScore = r.sectionScores.singleCorrect.score +
        r.sectionScores.multipleCorrect.score + r.sectionScores.numerical.score ∧
       r.totalMaxScore = r.sectionScores.singleCorrect.maxScore +
        r.sectionScores.multipleCorrect.maxScore + r.sectionScores.numerical.maxScore) →
      ((qs.foldl (processQuestion ms ak) r).totalScore =
        (qs.foldl (processQuestion ms ak) r).sectionScores.singleCorrect.score +
        (qs.foldl (processQuestion ms ak) r).sectionScores.multipleCorrect.score +
        (qs.foldl (processQuestion ms ak) r).sectionScores.numerical.score ∧
       (qs.foldl (processQuestion ms ak) r).totalMaxScore =
        (qs.foldl (processQuestion ms ak) r).sectionScores.singleCorrect.maxScore +
        (qs.foldl (processQuestion ms ak) r).sectionScores.multipleCorrect.maxScore +
        (qs.foldl (processQuestion ms ak) r).sectionScores.numerical.maxScore) := by
  intro qs
  induction qs with
  | nil => intro r h; exact h
  | cons q qs ih =>
    intro r h
    simp only [List.foldl_cons]
    exact ih _ (processQuestion_sums ms ak q r h.1 h.2)

/-- Claim C6: for every input, the result of `calculateScore` satisfies
`totalScore = sectionScores.singleCorrect.score +
sectionScores.multipleCorrect.score + sectionScores.numerical.score`, and
`totalMaxScore` is likewise the sum of the three sections' `maxScore`. -/
theorem C6_sum_invariant (qs : List Question) (ak : AnswerKey) (ms : MarkingScheme) :
    (calculateScore qs ak ms).totalScore =
      (calculateScore qs ak ms).sectionScores.singleCorrect.score +
      (calculateScore qs ak ms).sectionScores.multipleCorrect.score +
      (calculateScore qs ak ms).sectionScores.numerical.score ∧
    (calculateScore qs ak ms).totalMaxScore =
      (calculateScore qs ak ms).sectionScores.singleCorrect.maxScore +
      (calculateScore qs ak ms).sectionScores.multipleCorrect.maxScore +
      (calculateScore qs ak ms).sectionScores.numerical.maxScore :=
  foldl_sums ms ak qs initResult (by constructor <;> rfl)

/-- Claim C2: for every `singleCorrect` question whose id has an answer-key
entry, `calculateScore` (through its loop body `processQuestion`) uses the
per-question marks override exactly when `markingScheme.singleCorrect.global`
is false and the key entry has `marks` (`claimEffectiveSingleMarks`), adds
the chosen triple's `correct` value to the section and total `maxScore`,
and scores and counts the unanswered / correct / incorrect outcomes as the
claim states (`claimSimpleOutcome`, `claimSimpleCounters`). -/
theorem C2_singleCorrect_scoring (ms : MarkingScheme) (ak : AnswerKey)
    (r : ScoreResult) (q : Question) (key : KeyEntry)
    (hk : lookupKey ak q.id = some key) (ht : q.type = "singleCorrect") :
    processQuestion ms ak r q =
      { totalScore := r.totalScore +
          (claimSimpleOutcome (claimEffectiveSingleMarks ms key) key.correctAnswer q.userAnswer).1
        totalMaxScore := r.totalMaxScore + (claimEffectiveSingleMarks ms key).correct
        sectionScores := { r.sectionScores with singleCorrect :=
          { score := r.sectionScores.singleCorrect.score +
              (claimSimpleOutcome (claimEffectiveSingleMarks ms key) key.correctAnswer q.userAnswer).1
            maxScore := r.sectionScores.singleCorrect.maxScore +
              (claimEffectiveSingleMarks ms key).correct
            correct := r.sectionScores.singleCorrect.correct +
              (claimSimpleCounters key.correctAnswer q.userAnswer).1
            incorrect := r.sectionScores.singleCorrect.incorrect +
              (claimSimpleCounters key.correctAnswer q.userAnswer).2.1
            unanswered := r.sectionScores.singleCorrect.unanswered +
              (claimSimpleCounters key.correctAnswer q.userAnswer).2.2 } }
        questionScores := r.questionScores ++
          [(q.id,
            { score := (claimSimpleOutcome (claimEffectiveSingleMarks ms key) key.correctAnswer q.userAnswer).1
              maxScore := (claimEffectiveSingleMarks ms key).correct
              isCorrect := (claimSimpleOutcome (claimEffectiveSingleMarks ms key) key.correctAnswer q.userAnswer).2
              correctAnswer := key.correctAnswer
              userAnswer := q.userAnswer })] } :=
  step_singleCorrect ms ak r q key hk ht

theorem C2_singleCorrect_scoring_witness :
    lookupKey sampleAnswerKey 1 = some ⟨"singleCorrect", .str "A", some ⟨4, -1, 0⟩⟩ ∧
    processQuestion defaultMarkingScheme sampleAnswerKey initResult
        ⟨1, "singleCorrect", some (.str "A")⟩ =
      { totalScore := 4
        totalMaxScore := 4
        sectionScores :=
          { singleCorrect := ⟨4, 4, 1, 0, 0⟩
            multipleCorrect := ⟨0, 0, 0, ⟨0, 0, 0⟩, 0, 0⟩
            numerical := ⟨0, 0, 0, 0, 0⟩ }
        questionScores := [(1, ⟨4, 4, true, .str "A", some (.str "A")⟩)] } := by
  have h := C2_singleCorrect_scoring defaultMarkingScheme sampleAnswerKey initResult
    ⟨1, "singleCorrect", some (.str "A")⟩ ⟨"singleCorrect", .str "A", some ⟨4, -1, 0⟩⟩
    rfl rfl
  exact ⟨rfl, by rw [h]; decide⟩

/-- Claim C1: for every `multipleCorrect` question whose id has an
answer-key entry with correct set `correctSet`, and whose user answer is
`null` or an array of options (`uaL`), `calculateScore`'s loop body adds
`markingScheme.multipleCorrect.allCorrect` to the section and question
`maxScore` regardless of `correctSet.length`, and scores, marks
`isCorrect` and counts by the claim's tie-break ladder
(`claimMultipleTier`): null/empty is unanswered; any marked option outside
`correctSet` is `anyIncorrect` with priority over the partial tiers; then
equal sizes give `allCorrect` (the only tier with `isCorrect = true`),
4/3 gives `allCorrectOptionsThreeMarked`, ≥3/2 gives
`twoCorrectOptionsMarked`, ≥2/1 gives `oneCorrectOptionMarked`, and any
remaining shape falls through to `anyIncorrect`. -/
theorem C1_multipleCorrect_ladder (ms : MarkingScheme) (ak : AnswerKey)
    (r : ScoreResult) (q : Question) (key : KeyEntry) (correctSet : List String)
    (uaL : Option (List String))
    (hk : lookupKey ak q.id = some key) (ht : q.type = "multipleCorrect")
    (hc : key.correctAnswer = .arr correctSet)
    (hu : q.userAnswer = uaL.map Answer.arr) :
    processQuestion ms ak r q =
      { totalScore := r.totalScore +
          claimTierScore ms.multipleCorrect (claimMultipleTier correctSet uaL)
        totalMaxScore := r.totalMaxScore + ms.multipleCorrect.allCorrect
        sectionScores :=
          { r.sectionScores with
              multipleCorrect :=
                bumpTierCounter
                  ({ r.sectionScores.multipleCorrect with
                      score := r.sectionScores.multipleCorrect.score +
                        claimTierScore ms.multipleCorrect (claimMultipleTier correctSet uaL)
                      maxScore := r.sectionScores.multipleCorrect.maxScore +
                        ms.multipleCorrect.allCorrect })
                  (claimMultipleTier correctSet uaL) }
        questionScores := r.questionScores ++
          [(q.id,
            { score := claimTierScore ms.multipleCorrect (claimMultipleTier correctSet uaL)
              maxScore := ms.multipleCorrect.allCorrect
              isCorrect := claimMultipleTier correctSet uaL == "allCorrect"
              correctAnswer := key.correctAnswer
              userAnswer := q.userAnswer })] } :=
  step_multipleCorrect ms ak r q key correctSet uaL hk ht hc hu

theorem C1_multipleCorrect_ladder_witness :
    lookupKey sampleAnswerKey 3 = some ⟨"multipleCorrect", .arr ["A", "C", "D"], none⟩ ∧
    claimMultipleTier ["A", "C", "D"] (some ["A", "C"]) = "twoCorrectOptionsMarked" ∧
    processQuestion defaultMarkingScheme sampleAnswerKey initResult
        ⟨3, "multipleCorrect", some (.arr ["A", "C"])⟩ =
      { totalScore := 2
        totalMaxScore := 4
        sectionScores :=
          { singleCorrect := ⟨0, 0, 0, 0, 0⟩
            multipleCorrect := ⟨2, 4, 0, ⟨0, 1, 0⟩, 0, 0⟩
            numerical := ⟨0, 0, 0, 0, 0⟩ }
        questionScores :=
          [(3, ⟨2, 4, false, .arr ["A", "C", "D"], some (.arr ["A", "C"])⟩)] } := by
  have h := C1_multipleCorrect_ladder defaultMarkingScheme sampleAnswerKey initResult
    ⟨3, "multipleCorrect", some (.arr ["A", "C"])⟩
    ⟨"multipleCorrect", .arr ["A", "C", "D"], none⟩ ["A", "C", "D"] (some ["A", "C"])
    rfl rfl rfl rfl
  exact ⟨rfl, by decide, by rw [h]; decide⟩

/-- Claim C5: for every `numerical` question whose id has an answer-key
entry, `calculateScore`'s loop body always uses the global
`markingScheme.numerical` triple — the statement holds for every value of
`key.marks`, so any per-question override is ignored — and compares the
user answer to the key's `correctAnswer` by exact string equality
(`jsEq`), scoring and counting the unanswered / correct / incorrect
outcomes accordingly; the witness shows `"9.80"` against `"9.8"` landing
in the incorrect tier. -/
theorem C5_numerical_scoring (ms : MarkingScheme) (ak : AnswerKey)
    (r : ScoreResult) (q : Question) (key : KeyEntry)
    (hk : lookupKey ak q.id = some key) (ht : q.type = "numerical") :
    processQuestion ms ak r q =
      { totalScore := r.totalScore +
          (claimSimpleOutcome ms.numerical key.correctAnswer q.userAnswer).1
        totalMaxScore := r.totalMaxScore + ms.numerical.correct
        sectionScores := { r.sectionScores with numerical :=
          { score := r.sectionScores.numerical.score +
              (claimSimpleOutcome ms.numerical key.correctAnswer q.userAnswer).1
            maxScore := r.sectionScores.numerical.maxScore + ms.numerical.correct
            correct := r.sectionScores.numerical.correct +
              (claimSimpleCounters key.correctAnswer q.userAnswer).1
            incorrect := r.sectionScores.numerical.incorrect +
              (claimSimpleCounters key.correctAnswer q.userAnswer).2.1
            unanswered := r.sectionScores.numerical.unanswered +
              (claimSimpleCounters key.correctAnswer q.userAnswer).2.2 } }
        questionScores := r.questionScores ++
          [(q.id,
            { score := (claimSimpleOutcome ms.numerical key.correctAnswer q.userAnswer).1
              maxScore := ms.numerical.correct
              isCorrect := (claimSimpleOutcome ms.numerical key.correctAnswer q.userAnswer).2
              correctAnswer := key.correctAnswer
              userAnswer := q.userAnswer })] } :=
  step_numerical ms ak r q key hk ht

theorem C5_numerical_scoring_witness :
    lookupKey [(5, ⟨"numerical", .str "9.8", some ⟨100, 100, 100⟩⟩)] 5 =
      some ⟨"numerical", .str "9.8", some ⟨100, 100, 100⟩⟩ ∧
    jsEq (.str "9.80") (.str "9.8") = false ∧
    processQuestion defaultMarkingScheme [(5, ⟨"numerical", .str "9.8", some ⟨100, 100, 100⟩⟩)]
        initResult ⟨5, "numerical", some (.str "9.80")⟩ =
      { totalScore := 0
        totalMaxScore := 4
        sectionScores :=
          { singleCorrect := ⟨0, 0, 0, 0, 0⟩
            multipleCorrect := ⟨0, 0, 0, ⟨0, 0, 0⟩, 0, 0⟩
            numerical := ⟨0, 4, 0, 1, 0⟩ }
        questionScores := [(5, ⟨0, 4, false, .str "9.8", some (.str "9.80")⟩)] } := by
  have h := C5_numerical_scoring defaultMarkingScheme
    [(5, ⟨"numerical", .str "9.8", some ⟨100, 100, 100⟩⟩)] initResult
    ⟨5, "numerical", some (.str "9.80")⟩ ⟨"numerical", .str "9.8", some ⟨100, 100, 100⟩⟩
    rfl rfl
  exact ⟨rfl, by decide, by rw [h]; decide⟩

/-- Claim C4: for every question whose id has no entry in the answer key,
`calculateScore` skips it entirely — its loop body is the identity on the
accumulated result, removing the question from any position of the list
does not change the output, and the id never appears in `questionScores`,
so it contributes 0 to `totalScore`, `totalMaxScore` and every section's
`score` and `maxScore`. -/
theorem C4_unkeyed_question_skipped (ms : MarkingScheme) (ak : AnswerKey)
    (q : Question) (h : lookupKey ak q.id = none) :
    (∀ r : ScoreResult, processQuestion ms ak r q = r) ∧
    (∀ qs1 qs2 : List Question,
      calculateScore (qs1 ++ q :: qs2) ak ms = calculateScore (qs1 ++ qs2) ak ms) ∧
    (∀ qs : List Question,
      q.id ∉ ((calculateScore qs ak ms).questionScores.map Prod.fst)) := by
  refine ⟨fun r => processQuestion_none ms ak r q h, fun qs1 qs2 => ?_, fun qs => ?_⟩
  · unfold calculateScore
    rw [List.foldl_append, List.foldl_append, List.foldl_cons,
      processQuestion_none ms ak _ q h]
  · exact mem_fst_questionScores_foldl ms ak q.id h qs initResult (by simp [initResult])

theorem C4_unkeyed_question_skipped_witness :
    lookupKey sampleAnswerKey 99 = none ∧
    processQuestion defaultMarkingScheme sampleAnswerKey initResult
      ⟨99, "singleCorrect", some (.str "A")⟩ = initResult ∧
    calculateScore [⟨99, "singleCorrect", some (.str "A")⟩] sampleAnswerKey
        defaultMarkingScheme =
      calculateScore [] sampleAnswerKey defaultMarkingScheme ∧
    99 ∉ ((calculateScore [⟨99, "singleCorrect", some (.str "A")⟩] sampleAnswerKey
      defaultMarkingScheme).questionScores.map Prod.fst) := by
  obtain ⟨h1, h2, h3⟩ := C4_unkeyed_question_skipped defaultMarkingScheme sampleAnswerKey
    ⟨99, "singleCorrect", some (.str "A")⟩ rfl
  exact ⟨rfl, h1 initResult, h2 [] [], h3 [⟨99, "singleCorrect", some (.str "A")⟩]⟩

/-- Claim C8: `calculateScore` is a total function of its inputs (the
embedding returns a result on every input, so no exception arises for
well-formed input), and for every keyed question whose type matches none
of the three cases the loop body leaves every field of every section
bucket unchanged and contributes 0 to `totalScore` and `totalMaxScore`. -/
theorem C8_unknown_type_silent (ms : MarkingScheme) (ak : AnswerKey)
    (r : ScoreResult) (q : Question) (key : KeyEntry)
    (hk : lookupKey ak q.id = some key)
    (h1 : q.type ≠ "singleCorrect") (h2 : q.type ≠ "multipleCorrect")
    (h3 : q.type ≠ "numerical") :
    (processQuestion ms ak r q).sectionScores = r.sectionScores ∧
    (processQuestion ms ak r q).totalScore = r.totalScore ∧
    (processQuestion ms ak r q).totalMaxScore = r.totalMaxScore := by
  rw [step_unknownType ms ak r q key hk h1 h2 h3]
  exact ⟨rfl, rfl, rfl⟩

theorem C8_unknown_type_silent_witness :
    lookupKey [(7, ⟨"matrixMatch", .str "A", none⟩)] 7 =
      some ⟨"matrixMatch", .str "A", none⟩ ∧
    (processQuestion defaultMarkingScheme [(7, ⟨"matrixMatch", .str "A", none⟩)]
      initResult ⟨7, "matrixMatch", some (.str "B")⟩).sectionScores =
        initResult.sectionScores ∧
    (processQuestion defaultMarkingScheme [(7, ⟨"matrixMatch", .str "A", none⟩)]
      initResult ⟨7, "matrixMatch", some (.str "B")⟩).totalScore =
        initResult.totalScore ∧
    (processQuestion defaultMarkingScheme [(7, ⟨"matrixMatch", .str "A", none⟩)]
      initResult ⟨7, "matrixMatch", some (.str "B")⟩).totalMaxScore =
        initResult.totalMaxScore := by
  obtain ⟨h1, h2, h3⟩ := C8_unknown_type_silent defaultMarkingScheme
    [(7, ⟨"matrixMatch", .str "A", none⟩)] initResult
    ⟨7, "matrixMatch", some (.str "B")⟩ ⟨"matrixMatch", .str "A", none⟩
    rfl (by decide) (by decide) (by decide)
  exact ⟨rfl, h1, h2, h3⟩

/-- Claim C9: for every question whose id has an answer-key entry, the loop
body of `calculateScore` appends a `questionScores` entry keyed by that id
whatever the question's type, copying in the key's `correctAnswer` and the
question's `userAnswer`; when the type is unrecognized the entry is
exactly `score 0, maxScore 0, isCorrect false` with those copies. -/
theorem C9_questionScores_entry (ms : MarkingScheme) (ak : AnswerKey)
    (r : ScoreResult) (q : Question) (key : KeyEntry)
    (hk : lookupKey ak q.id = some key) :
    (∃ e : QuestionScore,
      (processQuestion ms ak r q).questionScores = r.questionScores ++ [(q.id, e)] ∧
      e.correctAnswer = key.correctAnswer ∧ e.userAnswer = q.userAnswer) ∧
    (q.type ≠ "singleCorrect" → q.type ≠ "multipleCorrect" → q.type ≠ "numerical" →
      (processQuestion ms ak r q).questionScores = r.questionScores ++
        [(q.id, ⟨0, 0, false, key.correctAnswer, q.userAnswer⟩)]) := by
  constructor
  · obtain ⟨x, hx⟩ := processQuestion_some ms ak r q key hk
    exact ⟨_, by rw [hx], rfl, rfl⟩
  · intro h1 h2 h3
    rw [step_unknownType ms ak r q key hk h1 h2 h3]

theorem C9_questionScores_entry_witness :
    lookupKey [(7, ⟨"matrixMatch", .str "A", none⟩)] 7 =
      some ⟨"matrixMatch", .str "A", none⟩ ∧
    (processQuestion defaultMarkingScheme [(7, ⟨"matrixMatch", .str "A", none⟩)]
      initResult ⟨7, "matrixMatch", some (.str "B")⟩).questionScores =
        initResult.questionScores ++
          [(7, ⟨0, 0, false, .str "A", some (.str "B")⟩)] := by
  obtain ⟨_, h⟩ := C9_questionScores_entry defaultMarkingScheme
    [(7, ⟨"matrixMatch", .str "A", none⟩)] initResult
    ⟨7, "matrixMatch", some (.str "B")⟩ ⟨"matrixMatch", .str "A", none⟩ rfl
  exact ⟨rfl, h (by decide) (by decide) (by decide)⟩

/-- Claim C10: for every `multipleCorrect` question whose user answer is
neither `null` nor an array (a string in the embedding), the loop body of
`calculateScore` still adds `markingScheme.multipleCorrect.allCorrect` to
the section and total `maxScore`, but assigns score 0 — not any scheme
tier — and increments none of the `multipleCorrect` outcome counters, so
the sum of that section's outcome counters can be strictly less than the
number of `multipleCorrect` questions recorded in `questionScores` (the
witness exhibits such a run). -/
theorem C10_multipleCorrect_nonarray (ms : MarkingScheme) (ak : AnswerKey)
    (r : ScoreResult) (q : Question) (key : KeyEntry) (s : String)
    (hk : lookupKey ak q.id = some key) (ht : q.type = "multipleCorrect")
    (hu : q.userAnswer = some (.str s)) :
    processQuestion ms ak r q =
      { totalScore := r.totalScore
        totalMaxScore := r.totalMaxScore + ms.multipleCorrect.allCorrect
        sectionScores := { r.sectionScores with multipleCorrect :=
          { r.sectionScores.multipleCorrect with
              maxScore := r.sectionScores.multipleCorrect.maxScore +
                ms.multipleCorrect.allCorrect } }
        questionScores := r.questionScores ++
          [(q.id,
            { score := 0
              maxScore := ms.multipleCorrect.allCorrect
              isCorrect := false
              correctAnswer := key.correctAnswer
              userAnswer := q.userAnswer })] } :=
  step_multipleCorrect_skip ms ak r q key hk ht (Or.inl ⟨s, hu⟩)

theorem C10_multipleCorrect_nonarray_witness :
    lookupKey sampleAnswerKey 4 = some ⟨"multipleCorrect", .arr ["B", "D"], none⟩ ∧
    processQuestion defaultMarkingScheme sampleAnswerKey initResult
        ⟨4, "multipleCorrect", some (.str "B")⟩ =
      { totalScore := 0
        totalMaxScore := 4
        sectionScores :=
          { singleCorrect := ⟨0, 0, 0, 0, 0⟩
            multipleCorrect := ⟨0, 4, 0, ⟨0, 0, 0⟩, 0, 0⟩
            numerical := ⟨0, 0, 0, 0, 0⟩ }
        questionScores := [(4, ⟨0, 4, false, .arr ["B", "D"], some (.str "B")⟩)] } ∧
    (let res := calculateScore [⟨4, "multipleCorrect", some (.str "B")⟩]
        sampleAnswerKey defaultMarkingScheme
     res.sectionScores.multipleCorrect.allCorrect +
       res.sectionScores.multipleCorrect.partialCorrect.allCorrectOptionsThreeMarked +
       res.sectionScores.multipleCorrect.partialCorrect.twoCorrectOptionsMarked +
       res.sectionScores.multipleCorrect.partialCorrect.oneCorrectOptionMarked +
       res.sectionScores.multipleCorrect.anyIncorrect +
       res.sectionScores.multipleCorrect.unanswered <
      res.questionScores.length) := by
  have h := C10_multipleCorrect_nonarray defaultMarkingScheme sampleAnswerKey initResult
    ⟨4, "multipleCorrect", some (.str "B")⟩ ⟨"multipleCorrect", .arr ["B", "D"], none⟩
    "B" rfl rfl rfl
  exact ⟨rfl, by rw [h]; decide, by decide⟩

lemma truthy_object_iff (q : JSValue) :
    (truthy q && (jsTypeof q == "object")) = isNonNullObject q := by
  cases q <;> simp [truthy, jsTypeof, isNonNullObject]

lemma marksBlock_eq (m : JSValue) :
    (if jsTypeof m != "object" then false
     else if !hasKey m "correct" || !hasKey m "incorrect" || !hasKey m "unanswered" then
       false
     else if jsTypeof (getField m "correct") != "number" ||
         jsTypeof (getField m "incorrect") != "number" ||
         jsTypeof (getField m "unanswered") != "number" then false
     else true) = claimMarksOk m := by
  unfold claimMarksOk
  split_ifs <;> simp_all <;> aesop

set_option maxHeartbeats 1000000 in
lemma validateEntry_eq_amended (id : String) (q : JSValue) :
    validateEntry id q = amendedEntryOk id q := by
  have hobj := truthy_object_iff q
  simp only [validateEntry]
  rw [marksBlock_eq]
  unfold amendedEntryOk claimEntryOk
  rw [← hobj]
  rcases hty : getField q "type" with _ | _ | b | n | t | xs | fs <;>
    simp only [hty, isStrVal] <;>
    split_ifs <;> simp_all <;> (try aesop) <;> (try omega) <;> tauto

/-- Claim C3 is falsified as an "if and only if": this document satisfies
every condition the claim lists (numeric id, object entry with valid
`type` and `correctAnswer`), yet `validateAnswerKey` rejects it, because
the code also validates a truthy `marks` field — here the number `5`. -/
theorem C3_validator_iff_counterexample :
    validateAnswerKey (.obj [("1", .obj [("type", .str "singleCorrect"),
      ("correctAnswer", .str "A"), ("marks", .num 5)])]) = false ∧
    claimValidDocC3 (.obj [("1", .obj [("type", .str "singleCorrect"),
      ("correctAnswer", .str "A"), ("marks", .num 5)])]) = true := by
  constructor <;> rfl

/-- Claim C3 as amended: `validateAnswerKey` returns true exactly on a
non-null object with at least one entry all of whose entries satisfy the
claim's per-entry conditions and, additionally, whose `marks` value — when
present and truthy — is an object containing numeric `correct`,
`incorrect` and `unanswered` fields. -/
theorem C3_validateAnswerKey_amended (v : JSValue) :
    validateAnswerKey v = amendedValidDoc v := by
  unfold validateAnswerKey amendedValidDoc
  rw [← truthy_object_iff v]
  simp only [validateEntry_eq_amended]
  split_ifs <;> simp_all <;> (intros; exfalso; rcases ‹_ ∨ _› with h | h <;> simp_all)

/-- Claim C7 is falsified as stated: this entry contains a `marks` field
(`null`) that is not an object with the three numeric fields, yet
`validateAnswerKey` accepts the document — the code only checks `marks`
when it is truthy. -/
theorem C7_falsy_marks_counterexample :
    hasKey (.obj [("type", .str "singleCorrect"), ("correctAnswer", .str "A"),
      ("marks", JSValue.null)]) "marks" = true ∧
    claimMarksOk (getField (.obj [("type", .str "singleCorrect"),
      ("correctAnswer", .str "A"), ("marks", JSValue.null)]) "marks") = false ∧
    validateAnswerKey (.obj [("1", .obj [("type", .str "singleCorrect"),
      ("correctAnswer", .str "A"), ("marks", JSValue.null)])]) = true := by
  refine ⟨rfl, rfl, rfl⟩

/-- Claim C7 as amended: for every answer-key entry whose `marks` value is
present and truthy, `validateAnswerKey` returns false unless that value is
an object containing all three of `correct`, `incorrect`, `unanswered`,
each of type number; a falsy `marks` value (absent, `null`, `false`, `0`,
`""`) is skipped without invalidating the document. -/
theorem C7_truthy_marks_validated (doc : JSValue) (id : String) (entry : JSValue)
    (hmem : (id, entry) ∈ entriesOf doc)
    (htr : truthy (getField entry "marks") = true)
    (hbad : claimMarksOk (getField entry "marks") = false) :
    validateAnswerKey doc = false := by
  cases hvk : validateAnswerKey doc
  · rfl
  · exfalso
    unfold validateAnswerKey at hvk
    split_ifs at hvk
    have hall := (List.all_eq_true.mp hvk) (id, entry) hmem
    rw [validateEntry_eq_amended] at hall
    unfold amendedEntryOk at hall
    rw [htr, hbad] at hall
    simp at hall

theorem C7_truthy_marks_validated_witness :
    (("1", JSValue.obj [("type", .str "singleCorrect"), ("correctAnswer", .str "A"),
        ("marks", .num 5)]) ∈
      entriesOf (.obj [("1", .obj [("type", .str "singleCorrect"),
        ("correctAnswer", .str "A"), ("marks", .num 5)])])) ∧
    truthy (getField (JSValue.obj [("type", .str "singleCorrect"),
      ("correctAnswer", .str "A"), ("marks", .num 5)]) "marks") = true ∧
    claimMarksOk (getField (JSValue.obj [("type", .str "singleCorrect"),
      ("correctAnswer", .str "A"), ("marks", .num 5)]) "marks") = false ∧
    validateAnswerKey (.obj [("1", .obj [("type", .str "singleCorrect"),
      ("correctAnswer", .str "A"), ("marks", .num 5)])]) = false := by
  refine ⟨by simp [entriesOf], rfl, rfl, ?_⟩
  exact C7_truthy_marks_validated _ "1"
    (JSValue.obj [("type", .str "singleCorrect"), ("correctAnswer", .str "A"),
      ("marks", .num 5)])
    (by simp [entriesOf]) rfl rfl
